import Mathlib

/-!
Verification of the multi-cloud cluster aggregation pipeline
(`sync_cluster.py`) and the per-cluster query (`get_cluster.py`) of the
infra-backend repository, via a shallow embedding in Lean 4.

Modelling conventions:
* Python `None` is `Option.none`; a dict that may lack keys becomes a
  structure of `Option` fields, with `dict.get(k, d)` rendered as `getD`.
* Python `set()` with insertion via `update`/membership test is modelled as
  a duplicate-free list built in first-insertion order (`listInsert`);
  claims about sets are stated up to membership, not order.
* A raised-and-caught exception is modelled with `Option`/`Except`: `none`
  (resp. `.error`) at the point the exception is raised, consumed where the
  corresponding `try/except` sits in the source.
* Timestamps are opaque `Nat` values; the network layer is abstracted by
  passing the provider API responses as data.
-/

/-- One node-group dict as built by the collectors
(`node_group_data` in `sync_cluster.py`). `status` is `Option` because the
AWS branch stores `ng_info.get('status')`, which may be `None`. -/
structure NodeGroupData where
  name : String
  status : Option String
  instanceType : String
  minSize : Nat
  maxSize : Nat
  desiredSize : Nat
  diskSize : Nat
  capacityType : String
  amiType : String
deriving DecidableEq, Repr

/-- The `ClusterInfo` dataclass of `sync_cluster.py`, with the same field
defaults (`customer_category = "Internal"`, `account_type = "production"`,
`node_count = 0`, everything else `None`). Fields typed `str`/`int` in the
dataclass but assigned `None` by collectors are `Option` here, since Python
does not enforce the annotations. -/
structure ClusterInfo where
  name : String
  provider : String
  type : String
  region : String
  customer_category : Option String := some "Internal"
  account_type : String := "production"
  cluster_version : Option String := none
  node_count : Nat := 0
  nodeGroups : Option (List NodeGroupData) := none
  node_instance_types : Option (List String) := none
  tags : Option (List (String × String)) := none
  status : Option String := none
  created_at : Option Nat := none
deriving DecidableEq, Repr

/-- Insert into a duplicate-free list unless already present: one step of a
Python `set` insertion, keeping first-insertion order. -/
def listInsert (x : String) (l : List String) : List String :=
  if x ∈ l then l else l ++ [x]

/-- `set.update(xs)`: insert every element of `xs`. -/
def setUpdate (l : List String) (xs : List String) : List String :=
  xs.foldl (fun acc x => listInsert x acc) l

/-! ## Credential resolver (`CloudConfigLoader`) -/

/-- Per-cloud configuration block: the `enabled` flag and the
account-key → credential-dict mapping (`accounts` / `projects` /
`subscriptions` are the same lookup in the source). -/
structure CloudConfig where
  enabled : Bool := false
  accounts : List (String × List (String × String)) := []
deriving DecidableEq, Repr

/-- Association-list lookup, modelling Python `dict.get`. -/
def alistGet {α : Type} (l : List (String × α)) (k : String) : Option α :=
  (l.find? (fun kv => kv.1 = k)).map (·.2)

/-- Python `str.startswith`, as a character-list prefix test. -/
def pyStartsWith (s p : String) : Bool := p.toList.isPrefixOf s.toList

/-- Python `str.endswith`, as a character-list suffix test. -/
def pyEndsWith (s p : String) : Bool := p.toList.isSuffixOf s.toList

/-- Python `str.lower` (character-wise lowering; the source only lowers
ASCII tag keys). -/
def strLower (s : String) : String := ⟨s.toList.map Char.toLower⟩

/-- `CloudConfigLoader._resolve_env_vars`: a value of the form `${NAME}` is
replaced by the environment variable `NAME` (`value[2:-1]` is `drop 2`
followed by `dropRight 1`), an unset variable resolving to the empty string
(`os.getenv(env_var, '')`); other values pass through. -/
def resolve_env_vars (env : String → Option String) (value : String) : String :=
  if pyStartsWith value "$\x7b" && pyEndsWith value "\x7d" then
    (env ((value.drop 2).dropRight 1)).getD ""
  else value

/-- `CloudConfigLoader.get_cloud_credentials`: look up the cloud, then the
account, then resolve each credential value. Missing cloud or account give
an empty mapping. -/
def get_cloud_credentials (clouds : List (String × CloudConfig))
    (env : String → Option String) (cloud account : String) :
    List (String × String) :=
  let cloud_config := (alistGet clouds cloud).getD {}
  let account_config := (alistGet cloud_config.accounts account).getD []
  account_config.map (fun kv => (kv.1, resolve_env_vars env kv.2))

/-- `CloudConfigLoader.get_enabled_clouds`: keep the clouds whose config has
`enabled` true. -/
def get_enabled_clouds (clouds : List (String × CloudConfig)) :
    List (String × CloudConfig) :=
  clouds.filter (fun c => c.2.enabled)

/-! ## AWS collector (`CloudClustersCollector.get_aws_clusters`) -/

/-- The `scalingConfig` dict of an EKS `describe_nodegroup` response; each
key may be absent. -/
structure AwsScalingConfig where
  minSize : Option Nat := none
  maxSize : Option Nat := none
  desiredSize : Option Nat := none
deriving DecidableEq, Repr

/-- An EKS `describe_nodegroup` response (`ng_info`), keyed by the
node-group name from `list_nodegroups`. The source calls
`describe_nodegroup` twice per node group and reads the same response
shape both times. -/
structure AwsNodegroupInfo where
  name : String
  status : Option String := none
  instanceTypes : Option (List String) := none
  scalingConfig : Option AwsScalingConfig := none
  diskSize : Option Nat := none
  capacityType : Option String := none
  amiType : Option String := none
deriving DecidableEq, Repr

/-- The fields of an EKS `describe_cluster` response the collector reads. -/
structure AwsClusterApi where
  name : String
  tags : List (String × String) := []
  version : Option String := none
  createdAt : Option Nat := none
deriving DecidableEq, Repr

/-- One AWS region together with its clusters and their node groups, i.e.
what `list_clusters` + the describe calls return for that region. -/
structure AwsRegionData where
  region : String
  clusters : List (AwsClusterApi × List AwsNodegroupInfo) := []
deriving DecidableEq, Repr

/-- `ng_info.get('scalingConfig', {})`. -/
def aws_scaling (ng : AwsNodegroupInfo) : AwsScalingConfig :=
  ng.scalingConfig.getD {}

/-- `customer_category` extraction: the dict comprehension keeps tags whose
key lowercased starts with `customer` (in tag order), and
`next(iter(customer_tags.values()), None)` takes the first value, `None`
when there is none. -/
def aws_customer_info (tags : List (String × String)) : Option String :=
  ((tags.filter (fun kv => pyStartsWith (strLower kv.1) "customer")).head?).map
    (·.2)

/-- The `node_group_data` dict built per node group.
`ng_info.get('instanceTypes', [''])[0]` raises `IndexError` when the key is
present but the list empty; that is the `none` case here. -/
def aws_node_group_data (ng : AwsNodegroupInfo) : Option NodeGroupData :=
  ((ng.instanceTypes.getD [""]).head?).map (fun it =>
    { name := ng.name
      status := ng.status
      instanceType := it
      minSize := (aws_scaling ng).minSize.getD 0
      maxSize := (aws_scaling ng).maxSize.getD 0
      desiredSize := (aws_scaling ng).desiredSize.getD 0
      diskSize := ng.diskSize.getD 0
      capacityType := ng.capacityType.getD "ON_DEMAND"
      amiType := ng.amiType.getD "" })

/-- One iteration of the per-cluster node-group loop: append the
`node_group_data` dict, add `desiredSize` to the local `node_count`, and
`instance_types.update(ng_info.get('instanceTypes', []))`. A `none`
accumulator (a raised exception) propagates. -/
def aws_step (acc : Option (List NodeGroupData × Nat × List String))
    (ng : AwsNodegroupInfo) : Option (List NodeGroupData × Nat × List String) :=
  match acc with
  | none => none
  | some (gs, cnt, its) =>
    match aws_node_group_data ng with
    | none => none
    | some g =>
      some (gs ++ [g], cnt + (aws_scaling ng).desiredSize.getD 0,
            setUpdate its (ng.instanceTypes.getD []))

/-- The per-cluster node-group loop: accumulates the `nodeGroups` list, the
local `node_count`, and the `instance_types` set, starting empty. `none`
when the loop raises. -/
def aws_process_nodegroups (ngs : List AwsNodegroupInfo) :
    Option (List NodeGroupData × Nat × List String) :=
  ngs.foldl aws_step (some ([], 0, []))

/-- The `ClusterInfo` the AWS collector appends for one cluster. Note the
source constructor passes `status`, `nodeGroups` and `node_instance_types`
but never `node_count`, which therefore keeps its dataclass default `0`. -/
def aws_make_cluster (account_type region : String) (capi : AwsClusterApi)
    (ngs : List AwsNodegroupInfo) : Option ClusterInfo :=
  (aws_process_nodegroups ngs).map (fun r =>
    { name := capi.name
      provider := "AWS"
      type := if account_type = "production" then "Production"
              else "Non-Production"
      region := region
      customer_category := aws_customer_info capi.tags
      account_type := account_type
      cluster_version := capi.version
      node_instance_types := some r.2.2
      nodeGroups := some r.1
      tags := some capi.tags
      status := some (if r.2.1 ≠ 0 then "ACTIVE" else "DORMANT")
      created_at := capi.createdAt })

/-- Per-region cluster loop. An exception while processing a cluster is
caught by the per-region handler: the region's remaining clusters are
skipped but clusters already appended (earlier in the account-wide list)
are kept. -/
def aws_region_go (account_type region : String) :
    List (AwsClusterApi × List AwsNodegroupInfo) → List ClusterInfo
  | [] => []
  | c :: rest =>
    match aws_make_cluster account_type region c.1 c.2 with
    | none => []
    | some ci => ci :: aws_region_go account_type region rest

/-- `get_aws_clusters` after the region list is known: the account-wide
`clusters` list accumulated across regions. -/
def get_aws_clusters (account_type : String) (regions : List AwsRegionData) :
    List ClusterInfo :=
  regions.flatMap (fun rd => aws_region_go account_type rd.region rd.clusters)

/-! ## GCP collector (`CloudClustersCollector.get_gcp_clusters`) -/

/-- A GKE node pool (`cluster.node_pools` element); proto fields default to
zero / empty, and `x if x else 0` on a proto int is the identity. -/
structure GcpNodePool where
  name : String := ""
  status : Nat := 0
  machine_type : String := ""
  total_min_node_count : Nat := 0
  total_max_node_count : Nat := 0
  initial_node_count : Nat := 0
  disk_size_gb : Nat := 0
  location_policy : String := ""
  image_type : String := ""
deriving DecidableEq, Repr

/-- A GKE cluster as returned by `list_clusters`. -/
structure GcpCluster where
  name : String := ""
  location : String := ""
  node_pools : List GcpNodePool := []
  resource_labels : List (String × String) := []
  current_master_version : Option String := none
  current_node_count : Nat := 0
  create_time : Option Nat := none
deriving DecidableEq, Repr

/-- The `node_group_data` dict built per GKE node pool (pool status code
`2` maps to `ACTIVE`, anything else to `DORMANT`). -/
def gcp_pool_data (pool : GcpNodePool) : NodeGroupData :=
  { name := pool.name
    status := some (if pool.status = 2 then "ACTIVE" else "DORMANT")
    instanceType := pool.machine_type
    minSize := pool.total_min_node_count
    maxSize := pool.total_max_node_count
    desiredSize := pool.initial_node_count
    diskSize := pool.disk_size_gb
    capacityType := pool.location_policy
    amiType := pool.image_type }

/-- The `ClusterInfo` appended for one GKE cluster, given the value of the
`instance_types` accumulator after this cluster's pool loop. -/
def gcp_make_cluster (account_type : String) (instance_types : List String)
    (c : GcpCluster) : ClusterInfo :=
  { name := c.name
    provider := "GCP"
    type := if account_type = "production" then "Production"
            else "Non-Production"
    region := c.location
    customer_category :=
      some ((alistGet c.resource_labels "customer_category").getD "Lyric")
    account_type := account_type
    cluster_version := c.current_master_version
    node_count := c.current_node_count
    nodeGroups := some (c.node_pools.map gcp_pool_data)
    node_instance_types := some instance_types
    tags := some c.resource_labels
    status := some (if c.current_node_count ≠ 0 then "ACTIVE" else "DORMANT")
    created_at := c.create_time }

/-- The GCP cluster loop. In the source, `instance_types = []` is
initialised once per account, BEFORE the cluster loop, so the membership
test + append accumulates machine types across clusters; each cluster
receives a snapshot (`list(instance_types)`) of the accumulator taken after
its own pools were added. -/
def gcp_go (account_type : String) (instance_types : List String) :
    List GcpCluster → List ClusterInfo
  | [] => []
  | c :: rest =>
    let its := c.node_pools.foldl
      (fun acc p => listInsert p.machine_type acc) instance_types
    gcp_make_cluster account_type its c :: gcp_go account_type its rest

/-- `get_gcp_clusters` after the listing response is known. -/
def get_gcp_clusters (account_type : String) (cs : List GcpCluster) :
    List ClusterInfo :=
  gcp_go account_type [] cs

/-! ## Azure collector (`CloudClustersCollector.get_azure_clusters`) -/

/-- An AKS agent pool profile. -/
structure AzureAgentPool where
  count : Nat := 0
  vm_size : String := ""
deriving DecidableEq, Repr

/-- An AKS cluster as returned by `list_by_location`. -/
structure AzureCluster where
  name : String := ""
  agent_pool_profiles : List AzureAgentPool := []
  kubernetes_version : Option String := none
  tags : List (String × String) := []
  provisioning_state : String := ""
  created_time : Option Nat := none
deriving DecidableEq, Repr

/-- The `ClusterInfo` the Azure collector appends for one cluster:
`node_count` is the sum of agent-pool counts, `node_instance_types` the
de-duplicated VM sizes (`list(set(...))`, modelled in first-occurrence
order), `status` the provisioning state passed through; the constructor
passes neither `customer_category` nor `nodeGroups`, which keep their
dataclass defaults. -/
def azure_make_cluster (account_type location : String) (c : AzureCluster) :
    ClusterInfo :=
  { name := c.name
    provider := "AZURE"
    type := if account_type = "production" then "Production"
            else "Non-Production"
    region := location
    account_type := account_type
    cluster_version := c.kubernetes_version
    node_count := (c.agent_pool_profiles.map (·.count)).sum
    node_instance_types :=
      some (setUpdate [] (c.agent_pool_profiles.map (·.vm_size)))
    tags := some c.tags
    status := some c.provisioning_state
    created_at := c.created_time }

/-- `get_azure_clusters` after the location list is known: per location,
every listed cluster is normalised and appended. -/
def get_azure_clusters (account_type : String)
    (locations : List (String × List AzureCluster)) : List ClusterInfo :=
  locations.flatMap (fun loc => loc.2.map (azure_make_cluster account_type loc.1))

/-! ## Aggregator (`CloudClustersCollector.get_all_clusters`) -/

/-- The account-type variants dispatched per enabled cloud
(AWS: production/notproduction; GCP, Azure: production/development;
an unrecognised cloud name dispatches nothing). -/
def cloudAccountTypes (cloud : String) : List String :=
  if cloud = "aws" then ["production", "notproduction"]
  else if cloud = "gcp" then ["production", "development"]
  else if cloud = "azure" then ["production", "development"]
  else []

/-- The outcome of one collection task, observed through
`future.result()` wrapped in the per-future `try/except`: a raising task
contributes zero records. -/
def runTask (taskResult : String → String → Except String (List ClusterInfo))
    (cloud account_type : String) : List ClusterInfo :=
  match taskResult cloud account_type with
  | .ok cs => cs
  | .error _ => []

/-- The body of `get_all_clusters` up to its top-level `try`. The task
outcomes are abstracted as `taskResult cloud account_type`. Two source
behaviours are modelled exactly:
1. `ThreadPoolExecutor(max_workers=len(enabled_clouds))` raises
   `ValueError` when no cloud is enabled (`max_workers must be greater
   than 0`), the `.error` case;
2. the loop `for cloud, config in enabled_clouds.items():` appears twice,
   nested — the outer iteration resets `future_to_cloud`, resubmits every
   (cloud, account-type) task and extends `all_clusters` again, so with K
   enabled clouds every task runs K times and its records appear K times.
Completion order of `as_completed` is nondeterministic; the model fixes
submission order, and claims about the result are stated up to counting,
not ordering. -/
def get_all_clusters_impl (clouds : List (String × CloudConfig))
    (taskResult : String → String → Except String (List ClusterInfo)) :
    Except String (List ClusterInfo) :=
  let enabled := get_enabled_clouds clouds
  if enabled.isEmpty then
    .error "max_workers must be greater than 0"
  else
    .ok (enabled.flatMap (fun _ =>
      (enabled.flatMap (fun c =>
        (cloudAccountTypes c.1).map (fun a => (c.1, a)))).flatMap
        (fun ca => runTask taskResult ca.1 ca.2)))

/-- `get_all_clusters`: the top-level `try/except` converts any raised
fault into the empty result shape `{"clusters": []}`; the caller always
receives the (possibly empty) cluster list, never a fault. -/
def get_all_clusters (clouds : List (String × CloudConfig))
    (taskResult : String → String → Except String (List ClusterInfo)) :
    List ClusterInfo :=
  match get_all_clusters_impl clouds taskResult with
  | .ok cs => cs
  | .error _ => []

/-! ## Per-cluster query (`get_cluster.py`, `get_one_cluster_data`) -/

/-- A stored node-group dict as read back from the document store; the
formatter accesses every field with `.get(key)`, which yields `None` for a
missing key, hence all fields are `Option`. -/
structure StoredNodeGroup where
  ngName : Option String := none
  ngStatus : Option String := none
  ngInstanceType : Option String := none
  ngMinSize : Option Nat := none
  ngMaxSize : Option Nat := none
  ngDesiredSize : Option Nat := none
  ngDiskSize : Option Nat := none
  ngCapacityType : Option String := none
  ngAmiType : Option String := none
deriving DecidableEq, Repr

/-- A stored cluster document restricted to the fields the `$project`
stage keeps (`name, provider, cluster_version, region, created_at, status,
tags, nodeGroups`). `name` is the match key and always present. -/
structure StoredCluster where
  name : String
  provider : Option String := none
  cluster_version : Option String := none
  region : Option String := none
  created_at : Option Nat := none
  status : Option String := none
  tags : List (String × String) := []
  nodeGroups : List StoredNodeGroup := []
deriving DecidableEq, Repr

/-- The `"cluster"` payload built by `get_one_cluster_data`: the stored
fields re-keyed (`cluster_version` → `version`, `created_at` →
`createdAt` via `format_datetime`, modelled as the identity on opaque
timestamps). -/
structure FormattedCluster where
  fName : Option String
  fProvider : Option String
  fVersion : Option String
  fRegion : Option String
  fCreatedAt : Option Nat
  fStatus : Option String
  fTags : List (String × String)
  fNodeGroups : List StoredNodeGroup
deriving DecidableEq, Repr

/-- The three result shapes `get_one_cluster_data` can hand its caller:
the bare `None` from the `except` handler, the `{"cluster": None}` dict
for an unmatched name, and the `{"cluster": {...}}` dict. -/
inductive GetOneResult where
  | bareNone
  | clusterNone
  | clusterData (c : FormattedCluster)
deriving DecidableEq, Repr

/-- The response-formatting block of `get_one_cluster_data`. -/
def format_cluster (c : StoredCluster) : FormattedCluster :=
  { fName := some c.name
    fProvider := c.provider
    fVersion := c.cluster_version
    fRegion := c.region
    fCreatedAt := c.created_at
    fStatus := c.status
    fTags := c.tags
    fNodeGroups := c.nodeGroups }

/-- `get_one_cluster_data`: the pipeline matches on `name`, projects, and
limits to one document. `dbError` models an exception raised while
querying or formatting, caught by the `except` handler which returns the
bare `None`. -/
def get_one_cluster_data (store : List StoredCluster) (dbError : Bool)
    (cluster_id : String) : GetOneResult :=
  if dbError then .bareNone
  else
    match (store.filter (fun c => c.name = cluster_id)).head? with
    | none => .clusterNone
    | some c => .clusterData (format_cluster c)

/-! ## Concrete scenario inputs used by closed evaluation theorems -/

/-- A placeholder record for `Option.getD` on collector outputs. -/
def ciDefault : ClusterInfo :=
  { name := "", provider := "", type := "", region := "" }

/-- C1 scenario: the single record produced by the succeeding GCP task. -/
def c1Record : ClusterInfo :=
  { name := "gke-main", provider := "GCP", type := "Production",
    region := "us-central1" }

/-- C1 scenario: AWS and GCP both enabled. -/
def c1Clouds : List (String × CloudConfig) :=
  [("aws", { enabled := true }), ("gcp", { enabled := true })]

/-- C1 scenario task outcomes: the aws/production task raises an
unrecoverable fault, the gcp/production task succeeds with one record, the
remaining tasks succeed with no records. -/
def c1TaskResult : String → String → Except String (List ClusterInfo) :=
  fun cloud account_type =>
    if cloud = "aws" && account_type = "production" then
      .error "unrecoverable provider fault"
    else if cloud = "gcp" && account_type = "production" then .ok [c1Record]
    else .ok []

/-- C2/C7 witness input: one EKS cluster API response with customer tags. -/
def w2Capi : AwsClusterApi :=
  { name := "orders",
    tags := [("env", "prod"), ("CustomerName", "Acme"),
             ("customer_tier", "gold")] }

/-- C2/C7 witness input: two node groups with desired sizes 2 and 0. -/
def w2Ngs : List AwsNodegroupInfo :=
  [ { name := "ng-a", status := some "ACTIVE",
      instanceTypes := some ["m5.large"],
      scalingConfig := some { desiredSize := some 2 } },
    { name := "ng-b", instanceTypes := some ["m5.large", "m6i.large"],
      scalingConfig := some { minSize := some 0 } } ]

/-- C2 witness record: the AWS collector's output on `w2Capi`/`w2Ngs`. -/
def w2Cluster : ClusterInfo :=
  (aws_make_cluster "production" "us-east-1" w2Capi w2Ngs).getD ciDefault

/-- C3 scenario: a GKE cluster named `alpha` whose single pool uses machine
type `n1-standard-1`. -/
def c3ClusterA : GcpCluster :=
  { name := "alpha",
    node_pools := [{ name := "pool-a", machine_type := "n1-standard-1" }] }

/-- C3 scenario: a GKE cluster named `beta` whose single pool uses machine
type `n2-standard-4`. -/
def c3ClusterB : GcpCluster :=
  { name := "beta",
    node_pools := [{ name := "pool-b", machine_type := "n2-standard-4" }] }

/-- C4 scenario: the two node groups of each cluster, desired sizes 2
and 3. -/
def c4Ngs : List AwsNodegroupInfo :=
  [ { name := "ng-1", instanceTypes := some ["m5.large"],
      scalingConfig := some { desiredSize := some 2 } },
    { name := "ng-2", instanceTypes := some ["m5.xlarge"],
      scalingConfig := some { desiredSize := some 3 } } ]

/-- C4 scenario: one region holding one cluster. -/
def c4Region (cname : String) : AwsRegionData :=
  { region := "us-east-1", clusters := [({ name := cname }, c4Ngs)] }

/-- C4 scenario: AWS is the only enabled cloud. -/
def c4Clouds : List (String × CloudConfig) := [("aws", { enabled := true })]

/-- C4 scenario task outcomes: each AWS account task runs the AWS collector
on its account's region data; no other cloud is enabled. -/
def c4TaskResult : String → String → Except String (List ClusterInfo) :=
  fun cloud account_type =>
    if cloud = "aws" then
      .ok (get_aws_clusters account_type
        [c4Region (if account_type = "production" then "prod-cluster"
                   else "nonprod-cluster")])
    else .ok []

/-- C4 scenario: the end-to-end result of the aggregate operation. -/
def c4Result : List ClusterInfo := get_all_clusters c4Clouds c4TaskResult

/-- C5 witness input: the raw credential block of the aws/production
account, one plain value and one unset placeholder reference. -/
def w5Creds : List (String × String) :=
  [("access_key", "AKIA123"), ("secret_key", "$\x7bAWS_SECRET_KEY\x7d")]

/-- C5 witness input: the aws cloud config holding `w5Creds`. -/
def w5Config : CloudConfig :=
  { enabled := true, accounts := [("production", w5Creds)] }

/-- C5 witness input: the full cloud configuration. -/
def w5Clouds : List (String × CloudConfig) := [("aws", w5Config)]

/-- C6 witness input: one configured but disabled cloud. -/
def w6Clouds : List (String × CloudConfig) := [("aws", { enabled := false })]

/-- C9 witness input: a store holding one cluster named `alpha`. -/
def w9Store : List StoredCluster := [{ name := "alpha" }]

/-! ## Helper lemmas -/

theorem mem_listInsert (x y : String) (l : List String) :
    y ∈ listInsert x l ↔ y ∈ l ∨ y = x := by
  unfold listInsert
  by_cases h : x ∈ l
  · simp only [if_pos h]
    constructor
    · exact Or.inl
    · rintro (hy | rfl)
      · exact hy
      · exact h
  · simp [if_neg h]

theorem mem_setUpdate (l xs : List String) (y : String) :
    y ∈ setUpdate l xs ↔ y ∈ l ∨ y ∈ xs := by
  induction xs generalizing l with
  | nil => simp [setUpdate]
  | cons x xs ih =>
    have h1 : setUpdate l (x :: xs) = setUpdate (listInsert x l) xs := rfl
    rw [h1, ih, mem_listInsert]
    simp only [List.mem_cons]
    tauto

theorem nodup_listInsert (x : String) (l : List String) (h : l.Nodup) :
    (listInsert x l).Nodup := by
  unfold listInsert
  by_cases hx : x ∈ l
  · simpa [if_pos hx]
  · simp only [if_neg hx]
    simpa [List.nodup_append] using ⟨h, hx⟩

theorem nodup_setUpdate (l xs : List String) (h : l.Nodup) :
    (setUpdate l xs).Nodup := by
  induction xs generalizing l with
  | nil => simpa [setUpdate]
  | cons x xs ih =>
    simp only [setUpdate, List.foldl_cons]
    exact ih (listInsert x l) (nodup_listInsert x l h)

theorem find?_eq_filter_head? {α : Type} (p : α → Bool) (l : List α) :
    l.find? p = (l.filter p).head? := by
  induction l with
  | nil => rfl
  | cons a l ih =>
    simp only [List.find?, List.filter]
    cases h : p a
    · exact ih
    · rfl

theorem aws_foldl_none (ngs : List AwsNodegroupInfo) :
    ngs.foldl aws_step none = none := by
  induction ngs with
  | nil => rfl
  | cons ng ngs ih =>
    rw [List.foldl_cons, show aws_step none ng = none from rfl]
    exact ih

theorem aws_node_group_data_desiredSize (ng : AwsNodegroupInfo)
    (g : NodeGroupData) (h : aws_node_group_data ng = some g) :
    g.desiredSize = (aws_scaling ng).desiredSize.getD 0 := by
  unfold aws_node_group_data at h
  cases hh : (ng.instanceTypes.getD [""]).head? with
  | none => rw [hh] at h; simp at h
  | some it =>
    rw [hh] at h
    simp only [Option.map_some'] at h
    injection h with h
    rw [← h]

theorem aws_fold_sum (ngs : List AwsNodegroupInfo) :
    ∀ gs0 cnt0 its0 gs cnt its,
      cnt0 = (gs0.map (fun g => g.desiredSize)).sum →
      ngs.foldl aws_step (some (gs0, cnt0, its0)) = some (gs, cnt, its) →
      cnt = (gs.map (fun g => g.desiredSize)).sum := by
  induction ngs with
  | nil =>
    intro gs0 cnt0 its0 gs cnt its h0 h
    simp only [List.foldl_nil, Option.some.injEq, Prod.mk.injEq] at h
    obtain ⟨h1, h2, h3⟩ := h
    rw [← h1, ← h2, h0]
  | cons ng ngs ih =>
    intro gs0 cnt0 its0 gs cnt its h0 h
    rw [List.foldl_cons] at h
    cases hg : aws_node_group_data ng with
    | none =>
      rw [show aws_step (some (gs0, cnt0, its0)) ng = none by
            simp [aws_step, hg]] at h
      rw [aws_foldl_none] at h
      exact absurd h (by simp)
    | some g =>
      rw [show aws_step (some (gs0, cnt0, its0)) ng
            = some (gs0 ++ [g], cnt0 + (aws_scaling ng).desiredSize.getD 0,
                    setUpdate its0 (ng.instanceTypes.getD [])) by
            simp [aws_step, hg]] at h
      refine ih _ _ _ _ _ _ ?_ h
      rw [List.map_append, List.sum_append, ← h0]
      simp [aws_node_group_data_desiredSize ng g hg]

/-! ## Claim theorems -/

/-- C2: for every ClusterRecord the AWS collector produces, the `status`
field is `ACTIVE` exactly when the sum of `desiredSize` over the record's
`nodeGroups` is nonzero, and `DORMANT` exactly when that sum is zero. -/
theorem aws_status_active_iff_desired_sum (account_type region : String)
    (capi : AwsClusterApi) (ngs : List AwsNodegroupInfo) (ci : ClusterInfo)
    (h : aws_make_cluster account_type region capi ngs = some ci) :
    (ci.status = some "ACTIVE" ↔
      (((ci.nodeGroups.getD []).map (fun g => g.desiredSize)).sum ≠ 0))
    ∧ (ci.status = some "DORMANT" ↔
      (((ci.nodeGroups.getD []).map (fun g => g.desiredSize)).sum = 0)) := by
  unfold aws_make_cluster at h
  cases hp : aws_process_nodegroups ngs with
  | none => rw [hp] at h; simp at h
  | some r =>
    obtain ⟨gs, cnt, its⟩ := r
    rw [hp] at h
    simp only [Option.map_some'] at h
    injection h with h
    subst h
    have hsum : cnt = (gs.map (fun g => g.desiredSize)).sum :=
      aws_fold_sum ngs [] 0 [] gs cnt its rfl hp
    simp only [Option.getD_some]
    rw [← hsum]
    by_cases hc : cnt = 0
    · rw [if_neg (not_not_intro hc)]
      exact ⟨⟨fun hx => absurd (Option.some.inj hx) (by decide),
              fun hx => absurd hc hx⟩,
             ⟨fun _ => hc, fun _ => rfl⟩⟩
    · rw [if_pos hc]
      exact ⟨⟨fun _ => hc, fun _ => rfl⟩,
             ⟨fun hx => absurd (Option.some.inj hx) (by decide),
              fun hx => absurd hx hc⟩⟩

/-- C2 witness: on the concrete AWS input `w2Capi`/`w2Ngs` (desired sizes
2 and 0) the produced record satisfies the status/desired-sum
equivalence. -/
theorem aws_status_active_iff_desired_sum_witness :
    (w2Cluster.status = some "ACTIVE" ↔
      (((w2Cluster.nodeGroups.getD []).map (fun g => g.desiredSize)).sum ≠ 0))
    ∧ (w2Cluster.status = some "DORMANT" ↔
      (((w2Cluster.nodeGroups.getD []).map (fun g => g.desiredSize)).sum = 0)) :=
  aws_status_active_iff_desired_sum "production" "us-east-1" w2Capi w2Ngs
    w2Cluster (by decide)

/-- C1: the claim says a configuration with one raising task and one
succeeding task producing N records yields exactly N records. Evaluated on
the concrete configuration `c1Clouds` (AWS and GCP enabled; aws/production
raises, gcp/production succeeds with the single record `c1Record`, the
other tasks succeed empty), the aggregate returns that record TWICE: the
duplicated `for cloud, config in enabled_clouds.items():` loop resubmits
every task once per enabled cloud, so N = 1 becomes 2 records. The failing
task does contribute zero records and the caller sees no fault, but the
count is wrong whenever more than one cloud is enabled. -/
theorem get_all_clusters_duplicates_on_two_clouds :
    get_all_clusters c1Clouds c1TaskResult = [c1Record, c1Record] ∧
    (get_all_clusters c1Clouds c1TaskResult).length ≠ 1 := by
  constructor
  · rfl
  · decide

/-- C3: the claim says every record's `node_instance_types` contains no
types from other clusters. Evaluated on a GCP account with two clusters
`alpha` (machine type `n1-standard-1`) and `beta` (machine type
`n2-standard-4`), the record for `beta` also carries `alpha`'s machine
type: the `instance_types` accumulator is initialised once per account,
outside the cluster loop. -/
theorem gcp_instance_types_leak_across_clusters :
    (get_gcp_clusters "production" [c3ClusterA, c3ClusterB]).map
        (fun ci => (ci.name, ci.node_instance_types))
      = [("alpha", some ["n1-standard-1"]),
         ("beta", some ["n1-standard-1", "n2-standard-4"])] := by
  rfl

/-- C4: the claim says each record of the AWS-only two-account scenario has
`node_count = 5`. Evaluated end to end (AWS enabled alone, each account one
cluster with node groups of desired sizes 2 and 3), both records have
`status = ACTIVE`, the expected `type`, and node-group desired sizes
summing to 5 — but `node_count = 0`, because the AWS collector computes the
local `node_count` only for the status decision and never passes it to the
`ClusterInfo` constructor, leaving the dataclass default `0`. -/
theorem aws_scenario_node_count_stays_zero :
    c4Result.map (fun ci =>
        (ci.type, ci.status, ci.node_count,
         ((ci.nodeGroups.getD []).map (fun g => g.desiredSize)).sum))
      = [("Production", some "ACTIVE", 0, 5),
         ("Non-Production", some "ACTIVE", 0, 5)] := by
  rfl

/-- C5: a credential whose raw value has the placeholder form (starts with
`${`, ends with `}`) and references an unset environment variable resolves
to the empty string at the same key — the key is present in the returned
mapping and no fault is raised (`get_cloud_credentials` is total). -/
theorem get_cloud_credentials_unset_env
    (clouds : List (String × CloudConfig)) (env : String → Option String)
    (cloud account : String) (cfg : CloudConfig)
    (creds : List (String × String)) (k v : String)
    (hc : alistGet clouds cloud = some cfg)
    (ha : alistGet cfg.accounts account = some creds)
    (hkv : (k, v) ∈ creds)
    (hpre : pyStartsWith v "$\x7b" = true)
    (hsuf : pyEndsWith v "\x7d" = true)
    (henv : env ((v.drop 2).dropRight 1) = none) :
    (k, "") ∈ get_cloud_credentials clouds env cloud account := by
  unfold get_cloud_credentials
  rw [hc]
  simp only [Option.getD_some]
  rw [ha]
  simp only [Option.getD_some]
  refine List.mem_map.mpr ⟨(k, v), hkv, ?_⟩
  unfold resolve_env_vars
  rw [hpre, hsuf]
  simp [henv]

/-- C5 witness: `aws/production` holds `secret_key = ${AWS_SECRET_KEY}`
and the environment is empty; the resolved mapping maps `secret_key` to
the empty string. -/
theorem get_cloud_credentials_unset_env_witness :
    ("secret_key", "") ∈
      get_cloud_credentials w5Clouds (fun _ => none) "aws" "production" :=
  get_cloud_credentials_unset_env w5Clouds (fun _ => none) "aws" "production"
    w5Config w5Creds "secret_key" "$\x7bAWS_SECRET_KEY\x7d"
    (by decide) (by decide) (by decide) (by decide) (by decide) rfl

/-- C6: with every configured cloud disabled, the aggregate operation
returns the empty result shape and no fault reaches the caller: the
`ThreadPoolExecutor(max_workers=0)` `ValueError` raised internally is
swallowed by the top-level handler, which returns `{"clusters": []}`. -/
theorem get_all_clusters_all_disabled
    (clouds : List (String × CloudConfig))
    (taskResult : String → String → Except String (List ClusterInfo))
    (h : ∀ c ∈ clouds, c.2.enabled = false) :
    get_all_clusters clouds taskResult = [] := by
  have he : get_enabled_clouds clouds = [] := by
    unfold get_enabled_clouds
    rw [List.filter_eq_nil_iff]
    intro a ha
    simp [h a ha]
  unfold get_all_clusters get_all_clusters_impl
  rw [he]
  rfl

/-- C6 witness: one configured but disabled cloud, a task function that
would produce a record if ever consulted; the result is still empty. -/
theorem get_all_clusters_all_disabled_witness :
    get_all_clusters w6Clouds (fun _ _ => Except.ok [ciDefault]) = [] :=
  get_all_clusters_all_disabled w6Clouds (fun _ _ => Except.ok [ciDefault])
    (by decide : ∀ c ∈ w6Clouds, c.2.enabled = false)

/-- C7: for every ClusterRecord the AWS collector produces, the
`customer_category` is the value of the first cluster tag whose key
case-insensitively starts with `customer`, and `none` (Python `None`, the
empty/absent value) when no such tag exists. -/
theorem aws_customer_category_first_tag (account_type region : String)
    (capi : AwsClusterApi) (ngs : List AwsNodegroupInfo) (ci : ClusterInfo)
    (h : aws_make_cluster account_type region capi ngs = some ci) :
    ci.customer_category
      = (capi.tags.find? (fun kv => pyStartsWith (strLower kv.1) "customer")).map
          (fun kv => kv.2)
    ∧ ((∀ kv ∈ capi.tags, pyStartsWith (strLower kv.1) "customer" = false) →
        ci.customer_category = none) := by
  unfold aws_make_cluster at h
  cases hp : aws_process_nodegroups ngs with
  | none => rw [hp] at h; simp at h
  | some r =>
    rw [hp] at h
    simp only [Option.map_some'] at h
    injection h with h
    subst h
    constructor
    · show aws_customer_info capi.tags = _
      unfold aws_customer_info
      rw [find?_eq_filter_head?]
    · intro hnone
      show aws_customer_info capi.tags = none
      unfold aws_customer_info
      rw [List.filter_eq_nil_iff.mpr (by intro kv hkv; simp [hnone kv hkv])]
      rfl

/-- C7 witness: on `w2Capi` (tags `env`, `CustomerName`, `customer_tier`)
the produced record's `customer_category` is the value of the first
matching tag, `Acme`. -/
theorem aws_customer_category_first_tag_witness :
    w2Cluster.customer_category
      = (w2Capi.tags.find? (fun kv => pyStartsWith (strLower kv.1) "customer")).map
          (fun kv => kv.2)
    ∧ ((∀ kv ∈ w2Capi.tags, pyStartsWith (strLower kv.1) "customer" = false) →
        w2Cluster.customer_category = none) :=
  aws_customer_category_first_tag "production" "us-east-1" w2Capi w2Ngs
    w2Cluster (by decide)

/-- C8: every record the Azure collector produces carries the provider's
provisioning state verbatim as `status` (never the ACTIVE/DORMANT
encoding), `node_count` equal to the sum of agent-pool counts, and
`node_instance_types` equal (as a duplicate-free set) to the agent-pool
VM sizes. -/
theorem azure_record_fields (account_type location : String)
    (c : AzureCluster) :
    (azure_make_cluster account_type location c).status
        = some c.provisioning_state
    ∧ (azure_make_cluster account_type location c).node_count
        = (c.agent_pool_profiles.map (fun p => p.count)).sum
    ∧ ∃ its, (azure_make_cluster account_type location c).node_instance_types
          = some its
        ∧ its.Nodup
        ∧ ∀ x, (x ∈ its ↔ x ∈ c.agent_pool_profiles.map (fun p => p.vm_size)) := by
  refine ⟨rfl, rfl, ⟨_, rfl, ?_, ?_⟩⟩
  · exact nodup_setUpdate [] _ List.nodup_nil
  · intro x
    rw [mem_setUpdate]
    simp

/-- C9: the per-cluster query returns the shape `{"cluster": None}` when no
stored cluster matches the requested name, but the bare value `None` when
an internal error occurs — two distinguishable, shape-inconsistent failure
modes. -/
theorem get_one_cluster_failure_shapes (store : List StoredCluster)
    (cluster_id : String) :
    get_one_cluster_data store true cluster_id = GetOneResult.bareNone
    ∧ ((∀ c ∈ store, ¬ c.name = cluster_id) →
        get_one_cluster_data store false cluster_id = GetOneResult.clusterNone)
    ∧ GetOneResult.bareNone ≠ GetOneResult.clusterNone := by
  refine ⟨rfl, ?_, by decide⟩
  intro hnone
  unfold get_one_cluster_data
  rw [if_neg (by simp)]
  rw [List.filter_eq_nil_iff.mpr (by intro c hc; simp [hnone c hc])]
  rfl

/-- C9 witness: with one stored cluster `alpha` and the request `beta`, the
no-match path returns `{"cluster": None}` while the error path returns the
bare `None`, and the two results differ. -/
theorem get_one_cluster_failure_shapes_witness :
    get_one_cluster_data w9Store true "beta" = GetOneResult.bareNone
    ∧ get_one_cluster_data w9Store false "beta" = GetOneResult.clusterNone
    ∧ GetOneResult.bareNone ≠ GetOneResult.clusterNone :=
  ⟨(get_one_cluster_failure_shapes w9Store "beta").1,
   (get_one_cluster_failure_shapes w9Store "beta").2.1
     (by decide : ∀ c ∈ w9Store, ¬ c.name = "beta"),
   (get_one_cluster_failure_shapes w9Store "beta").2.2⟩

/-- C10: every record the Azure collector produces keeps the dataclass
default `nodeGroups = None`: agent pools feed `node_count` and
`node_instance_types` but are never flattened into node-group entries. -/
theorem azure_nodeGroups_is_none (account_type location : String)
    (c : AzureCluster) :
    (azure_make_cluster account_type location c).nodeGroups = none := rfl
